import Mathlib

/-
Shallow embedding of src/src/libstat/stat_config.c (rspamd statistics
bootstrap / teardown / registry subsystem).

Conventions used throughout:
- C pointers that may be NULL are modelled as `Option`.
- `g_assert (x != NULL)` failures (glib aborts) are modelled by the enclosing
  operation returning `none`.
- Opaque provider state (backend state `bkcf`, tokenizer configuration `tkcf`)
  is modelled as `Nat` values produced by an explicit provider environment
  `ProviderEnv`; the providers themselves (bayes, osb, mmap, ...) live outside
  this translation unit and are consumed only through function pointers.
- GLib growable arrays (`GPtrArray`, `GArray`) are modelled as Lean lists with
  explicit appends; `GQueue` (head-to-tail) is a list whose head is the queue
  head.
-/

namespace StatConfig

/-- Minimal model of a UCL configuration object as used by this file: the code
only queries string-keyed children (`ucl_object_find_key`) and converts leaf
objects to strings (`ucl_object_tostring`). -/
inductive Ucl where
  | str : String → Ucl
  | obj : List (String × Ucl) → Ucl

/-- Key lookup on a UCL object: first binding of the key wins, `none` on a
non-object or a missing key. -/
def ucl_object_find_key (o : Ucl) (key : String) : Option Ucl :=
  match o with
  | .str _ => none
  | .obj kvs => (kvs.find? (fun kv => kv.fst == key)).map Prod.snd

/-- String conversion of a UCL object; `none` models the NULL returned for a
non-string object. -/
def ucl_object_tostring : Ucl → Option String
  | .str s => some s
  | .obj _ => none

/-- Descriptor from the static `stat_classifiers` table
(struct rspamd_stat_classifier); only the name is observable in this file, the
remaining fields are function pointers into external providers. -/
structure rspamd_stat_classifier where
  name : String
  deriving DecidableEq

/-- Descriptor from the static `stat_tokenizers` table
(struct rspamd_stat_tokenizer). -/
structure rspamd_stat_tokenizer where
  name : String
  deriving DecidableEq

/-- Descriptor from the static `stat_backends` table
(struct rspamd_stat_backend). -/
structure rspamd_stat_backend where
  name : String
  deriving DecidableEq

/-- Descriptor from the static `stat_caches` table (struct rspamd_stat_cache). -/
structure rspamd_stat_cache where
  name : String
  deriving DecidableEq

/-- Modelled from the spec: the default capability names are macros from
stat_internal.h, which is not part of the visible source; the spec documents
the default classifier algorithm name as "bayes". -/
def RSPAMD_DEFAULT_CLASSIFIER : String := "bayes"

/-- Modelled from the spec: default tokenizer name macro from stat_internal.h
(not in the visible source); the spec's end-to-end scenario uses "osb". -/
def RSPAMD_DEFAULT_TOKENIZER : String := "osb"

/-- Modelled from the spec: default backend name macro from stat_internal.h
(not in the visible source); the spec's end-to-end scenario uses "mmap". -/
def RSPAMD_DEFAULT_BACKEND : String := "mmap"

/-- Modelled from the spec: default cache name macro from stat_internal.h (not
in the visible source). The static `stat_caches` table names its single entry
with this same macro, so the table entry's name is this constant by
construction, whatever its value; the sqlite3-based implementation suggests
"sqlite3". -/
def RSPAMD_DEFAULT_CACHE : String := "sqlite3"

/-- The static `stat_classifiers` table. -/
def stat_classifiers : List rspamd_stat_classifier :=
  [⟨"bayes"⟩]

/-- The static `stat_tokenizers` table. -/
def stat_tokenizers : List rspamd_stat_tokenizer :=
  [⟨"osb-text"⟩, ⟨"osb"⟩]

/-- The static `stat_backends` table (the redis entry is compiled only under
WITH_HIREDIS and is omitted here). -/
def stat_backends : List rspamd_stat_backend :=
  [⟨"mmap"⟩, ⟨"sqlite3"⟩]

/-- The static `stat_caches` table; its single entry is named by the
RSPAMD_DEFAULT_CACHE macro. -/
def stat_caches : List rspamd_stat_cache :=
  [⟨RSPAMD_DEFAULT_CACHE⟩]

/-- The `for` loop shared by the four lookup accessors: linear scan in table
order, first exact name match wins, `none` when the scan falls off the end. -/
def scanTable {α : Type} (nameOf : α → String) (name : String) : List α → Option α
  | [] => none
  | e :: rest => if nameOf e = name then some e else scanTable nameOf name rest

/-- The default-name substitution at the top of each accessor, taken when the
name is NULL or empty. -/
def substDefault (dflt : String) : Option String → String
  | none => dflt
  | some s => if s = "" then dflt else s

/-- rspamd_stat_get_classifier: resolve a classifier algorithm descriptor by
name over the static table (which rspamd_stat_init installs unchanged as
stat_ctx->classifiers_subrs). -/
def rspamd_stat_get_classifier (name : Option String) : Option rspamd_stat_classifier :=
  scanTable rspamd_stat_classifier.name (substDefault RSPAMD_DEFAULT_CLASSIFIER name)
    stat_classifiers

/-- rspamd_stat_get_backend. -/
def rspamd_stat_get_backend (name : Option String) : Option rspamd_stat_backend :=
  scanTable rspamd_stat_backend.name (substDefault RSPAMD_DEFAULT_BACKEND name)
    stat_backends

/-- rspamd_stat_get_tokenizer. -/
def rspamd_stat_get_tokenizer (name : Option String) : Option rspamd_stat_tokenizer :=
  scanTable rspamd_stat_tokenizer.name (substDefault RSPAMD_DEFAULT_TOKENIZER name)
    stat_tokenizers

/-- rspamd_stat_get_cache. -/
def rspamd_stat_get_cache (name : Option String) : Option rspamd_stat_cache :=
  scanTable rspamd_stat_cache.name (substDefault RSPAMD_DEFAULT_CACHE name)
    stat_caches

/-- struct rspamd_statfile_config (cfg_file.h): only the symbol is read here. -/
structure rspamd_statfile_config where
  symbol : String
  deriving DecidableEq

/-- struct rspamd_classifier_config, restricted to the fields this file reads:
backend name, classifier algorithm name, the name field of the tokenizer
configuration (`clf->tokenizer->name`), the options sub-tree and the statfile
definitions. -/
structure rspamd_classifier_config where
  backend : Option String
  classifier : Option String
  tokenizer : Option String
  opts : Option Ucl
  statfiles : List rspamd_statfile_config

/-- struct rspamd_config, restricted to the classifier definition list. -/
structure rspamd_config where
  classifiers : List rspamd_classifier_config

/-- struct rspamd_statfile: the runtime statfile instance. The classifier
back-pointer `st->classifier` is modelled as the owning classifier's index in
the context's classifier collection; the opaque backend state `st->bkcf` is the
Nat the provider environment returned. -/
structure rspamd_statfile where
  id : Nat
  classifier : Nat
  stcf : rspamd_statfile_config
  backend : rspamd_stat_backend
  bkcf : Nat
  deriving DecidableEq

/-- struct rspamd_classifier: the runtime classifier instance. `cachecf`, the
opaque state returned by `cl->cache->init (stat_ctx, cfg, cache_obj)`, is
modelled by the cache options sub-tree argument the initializer received (the
initializer itself is an external provider). The algorithm state installed by
`cl->subrs->init_func` is opaque and unobserved in this file. -/
structure rspamd_classifier where
  cfg : rspamd_classifier_config
  statfiles_ids : List Nat
  subrs : rspamd_stat_classifier
  cache : rspamd_stat_cache
  cachecf : Option Ucl

/-- struct rspamd_stat_async_elt: deferred cleanup callback (possibly NULL,
modelled by an `Option Nat` callback identity) plus opaque user data. -/
structure rspamd_stat_async_elt where
  cleanup : Option Nat
  ud : Nat
  deriving DecidableEq

/-- struct rspamd_stat_ctx, restricted to the fields the claims observe: the
four descriptor-table views, the flat statfile collection, the classifier
collection, the shared tokenizer descriptor and configuration, and the async
cleanup queue (head first). -/
structure rspamd_stat_ctx where
  classifiers_subrs : List rspamd_stat_classifier
  backends_subrs : List rspamd_stat_backend
  tokenizers_subrs : List rspamd_stat_tokenizer
  caches_subrs : List rspamd_stat_cache
  statfiles : List rspamd_statfile
  classifiers : List rspamd_classifier
  tokenizer : Option rspamd_stat_tokenizer
  tkcf : Option Nat
  async_elts : List rspamd_stat_async_elt

/-- External provider behaviour consumed through function pointers:
`tokGetConfig` models `tokenizer->get_config (pool, clf->tokenizer, NULL)`
(keyed by the resolved tokenizer descriptor name and the definition's tokenizer
name; per the provider contract it always yields a configuration), and
`bkInit` models `bk->init (stat_ctx, cfg, st)` (keyed by the backend name and
the statfile definition; `none` models a NULL return, i.e. a failed backend
construction). -/
structure ProviderEnv where
  tokGetConfig : String → Option String → Nat
  bkInit : String → rspamd_statfile_config → Option Nat

/-- The mutable state of rspamd_stat_init's outer loop: the growing context
collections plus the two locals `cache_obj` and `cache_name`, which the C code
declares outside the loop and never resets, so they persist from one classifier
definition to the next. -/
structure InitState where
  statfiles : List rspamd_statfile
  classifiers : List rspamd_classifier
  tokenizer : Option rspamd_stat_tokenizer
  tkcf : Option Nat
  cache_obj : Option Ucl
  cache_name : Option String

/-- The inner `while (curst)` statfile loop: on a NULL backend state the
statfile is discarded (freed, no id consumed); otherwise `st->id` is set to the
current length of the statfile collection, the statfile is appended there and
its id appended to the classifier's id array. -/
def processStatfiles (env : ProviderEnv) (bk : rspamd_stat_backend) (clIdx : Nat) :
    List rspamd_statfile_config → List rspamd_statfile → List Nat →
      List rspamd_statfile × List Nat
  | [], statfiles, ids => (statfiles, ids)
  | stf :: rest, statfiles, ids =>
    match env.bkInit bk.name stf with
    | none => processStatfiles env bk clIdx rest statfiles ids
    | some bkcf =>
      processStatfiles env bk clIdx rest
        (statfiles ++ [{ id := statfiles.length, classifier := clIdx, stcf := stf,
                         backend := bk, bkcf := bkcf }])
        (ids ++ [statfiles.length])

/-- The `if (stat_ctx->tkcf == NULL)` block: resolve the tokenizer from this
definition only when none is cached yet (assert on resolution failure), and
build its configuration; otherwise keep the cached pair untouched. -/
def resolveTokenizer (env : ProviderEnv) (s : InitState) (clf : rspamd_classifier_config) :
    Option (Option rspamd_stat_tokenizer × Nat) :=
  match s.tkcf with
  | some c => some (s.tokenizer, c)
  | none =>
    match rspamd_stat_get_tokenizer clf.tokenizer with
    | none => none
    | some t => some (some t, env.tokGetConfig t.name clf.tokenizer)

/-- The `if (clf->opts)` cache block: updates the loop-scoped `cache_obj` and
`cache_name` locals. `cache_name_obj` is reset each time the options tree is
present, but `cache_obj` survives a definition without options and `cache_name`
additionally survives a definition without a nested cache.name value. -/
def nextCacheState (s : InitState) (clf : rspamd_classifier_config) :
    Option Ucl × Option String :=
  match clf.opts with
  | none => (s.cache_obj, s.cache_name)
  | some opts =>
    match ucl_object_find_key opts "cache" with
    | none => (none, s.cache_name)
    | some c =>
      match ucl_object_find_key c "name" with
      | none => (some c, s.cache_name)
      | some n => (some c, ucl_object_tostring n)

/-- One iteration of rspamd_stat_init's `while (cur)` loop over classifier
definitions: resolve the backend (assert), the shared tokenizer (assert, first
definition only), the classifier algorithm (assert) and the cache (assert),
run the statfile loop, then append the classifier. `none` models a g_assert
abort. -/
def processClassifier (env : ProviderEnv) (s : InitState) (clf : rspamd_classifier_config) :
    Option InitState :=
  match rspamd_stat_get_backend clf.backend with
  | none => none
  | some bk =>
    match resolveTokenizer env s clf with
    | none => none
    | some tk =>
      match rspamd_stat_get_classifier clf.classifier with
      | none => none
      | some subrs =>
        match rspamd_stat_get_cache (nextCacheState s clf).2 with
        | none => none
        | some cache =>
          some { statfiles :=
                   (processStatfiles env bk s.classifiers.length clf.statfiles
                     s.statfiles []).1,
                 classifiers := s.classifiers ++
                   [{ cfg := clf,
                      statfiles_ids :=
                        (processStatfiles env bk s.classifiers.length clf.statfiles
                          s.statfiles []).2,
                      subrs := subrs, cache := cache,
                      cachecf := (nextCacheState s clf).1 }],
                 tokenizer := tk.1,
                 tkcf := some tk.2,
                 cache_obj := (nextCacheState s clf).1,
                 cache_name := (nextCacheState s clf).2 }

/-- The loop state at entry of rspamd_stat_init for a fresh (NULL) stat_ctx:
`g_slice_alloc0` zeroes the context, and the two cache locals start as NULL. -/
def initState0 : InitState :=
  { statfiles := [], classifiers := [], tokenizer := none, tkcf := none,
    cache_obj := none, cache_name := none }

/-- The `while (cur)` loop of rspamd_stat_init over the classifier definition
list; `none` models an aborted bootstrap (g_assert failure). -/
def initLoop (env : ProviderEnv) : InitState → List rspamd_classifier_config → Option InitState
  | s, [] => some s
  | s, clf :: rest =>
    match processClassifier env s clf with
    | none => none
    | some s' => initLoop env s' rest

/-- rspamd_stat_init for an initially absent stat_ctx: install the four static
descriptor tables, create the empty collections and queue, and run the
classifier loop. -/
def rspamd_stat_init (env : ProviderEnv) (cfg : rspamd_config) : Option rspamd_stat_ctx :=
  match initLoop env initState0 cfg.classifiers with
  | none => none
  | some s =>
    some { classifiers_subrs := stat_classifiers,
           backends_subrs := stat_backends,
           tokenizers_subrs := stat_tokenizers,
           caches_subrs := stat_caches,
           statfiles := s.statfiles,
           classifiers := s.classifiers,
           tokenizer := s.tokenizer,
           tkcf := s.tkcf,
           async_elts := [] }

/-- A close event carries the backend descriptor's name and the opaque backend
state the close operation received. -/
structure CloseTrace where
  closes : List (String × Nat)
  asyncCalls : List (Nat × Nat)
  deriving DecidableEq

/-- The `while (cur)` drain of the async queue in rspamd_stat_close: walk the
queue from head to tail and invoke each element's cleanup callback when it is
non-NULL; an invocation is recorded as (callback, user data). -/
def drainAsync : List rspamd_stat_async_elt → List (Nat × Nat)
  | [] => []
  | e :: rest =>
    match e.cleanup with
    | some c => (c, e.ud) :: drainAsync rest
    | none => drainAsync rest

/-- The inner id loop of rspamd_stat_close for one classifier: look each owned
id up in the flat statfile collection and invoke its backend's close operation.
An out-of-bounds id would be an out-of-bounds `g_ptr_array_index`, i.e.
undefined behaviour, modelled as `none`. -/
def closeIds (statfiles : List rspamd_statfile) : List Nat → Option (List (String × Nat))
  | [] => some []
  | id :: rest =>
    match statfiles[id]? with
    | none => none
    | some st => (closeIds statfiles rest).map (fun tr => (st.backend.name, st.bkcf) :: tr)

/-- The outer classifier loop of rspamd_stat_close. -/
def closeClassifiers (statfiles : List rspamd_statfile) :
    List rspamd_classifier → Option (List (String × Nat))
  | [] => some []
  | cl :: rest =>
    match closeIds statfiles cl.statfiles_ids with
    | none => none
    | some tr => (closeClassifiers statfiles rest).map (fun tr2 => tr ++ tr2)

/-- rspamd_stat_close on a given context: close every owned statfile, classifier
by classifier, then drain the async queue; returns the trace of provider calls. -/
def rspamd_stat_close (ctx : rspamd_stat_ctx) : Option CloseTrace :=
  match closeClassifiers ctx.statfiles ctx.classifiers with
  | none => none
  | some closes => some { closes := closes, asyncCalls := drainAsync ctx.async_elts }

/-- rspamd_stat_get_ctx: return the process-wide context or NULL. -/
def rspamd_stat_get_ctx (g : Option rspamd_stat_ctx) : Option rspamd_stat_ctx := g

/-- rspamd_stat_close as seen from the process-wide state: `g_assert (st_ctx !=
NULL)` aborts when no context exists (`none`, not a no-op); otherwise the
context is torn down and the global pointer reset to NULL, yielding the new
global state together with the trace of provider calls. -/
def rspamd_stat_close_global (g : Option rspamd_stat_ctx) :
    Option (Option rspamd_stat_ctx × CloseTrace) :=
  match rspamd_stat_get_ctx g with
  | none => none
  | some ctx =>
    match rspamd_stat_close ctx with
    | none => none
    | some tr => some (none, tr)

/-- Outcome of a lookup accessor run against the process-wide context pointer:
the accessors dereference `stat_ctx` unconditionally, so a NULL context is a
NULL-pointer dereference, not a graceful absent result. -/
inductive GlobalResult (α : Type) where
  | nullDeref : GlobalResult α
  | ok : Option α → GlobalResult α
  deriving DecidableEq

/-- rspamd_stat_get_classifier as executed against the process-wide context:
reads `stat_ctx->classifiers_subrs` / `stat_ctx->classifiers_count` with no
NULL check. -/
def rspamd_stat_get_classifier_global (g : Option rspamd_stat_ctx) (name : Option String) :
    GlobalResult rspamd_stat_classifier :=
  match g with
  | none => GlobalResult.nullDeref
  | some ctx =>
    GlobalResult.ok
      (scanTable rspamd_stat_classifier.name (substDefault RSPAMD_DEFAULT_CLASSIFIER name)
        ctx.classifiers_subrs)

/-- rspamd_stat_get_backend as executed against the process-wide context. -/
def rspamd_stat_get_backend_global (g : Option rspamd_stat_ctx) (name : Option String) :
    GlobalResult rspamd_stat_backend :=
  match g with
  | none => GlobalResult.nullDeref
  | some ctx =>
    GlobalResult.ok
      (scanTable rspamd_stat_backend.name (substDefault RSPAMD_DEFAULT_BACKEND name)
        ctx.backends_subrs)

/-- rspamd_stat_get_tokenizer as executed against the process-wide context. -/
def rspamd_stat_get_tokenizer_global (g : Option rspamd_stat_ctx) (name : Option String) :
    GlobalResult rspamd_stat_tokenizer :=
  match g with
  | none => GlobalResult.nullDeref
  | some ctx =>
    GlobalResult.ok
      (scanTable rspamd_stat_tokenizer.name (substDefault RSPAMD_DEFAULT_TOKENIZER name)
        ctx.tokenizers_subrs)

/-- rspamd_stat_get_cache as executed against the process-wide context. -/
def rspamd_stat_get_cache_global (g : Option rspamd_stat_ctx) (name : Option String) :
    GlobalResult rspamd_stat_cache :=
  match g with
  | none => GlobalResult.nullDeref
  | some ctx =>
    GlobalResult.ok
      (scanTable rspamd_stat_cache.name (substDefault RSPAMD_DEFAULT_CACHE name)
        ctx.caches_subrs)

/-- The nested cache.name string of one classifier definition's own options
sub-tree (the per-definition value §4.2(d) of the spec describes). -/
def clfCacheName (clf : rspamd_classifier_config) : Option String :=
  match clf.opts with
  | none => none
  | some o =>
    match ucl_object_find_key o "cache" with
    | none => none
    | some c =>
      match ucl_object_find_key c "name" with
      | none => none
      | some n => ucl_object_tostring n

/-- A classifier definition whose Storage Backend, Classifier Algorithm or own
nested cache.name resolves to no descriptor (the fatal misconfigurations of
claim C7). -/
def badDef (clf : rspamd_classifier_config) : Prop :=
  rspamd_stat_get_backend clf.backend = none ∨
  rspamd_stat_get_classifier clf.classifier = none ∨
  ∃ cn, clfCacheName clf = some cn ∧ rspamd_stat_get_cache (some cn) = none

/-- Concatenation of the classifiers' owned-id sequences, in classifier order. -/
def joinIds (cls : List rspamd_classifier) : List Nat :=
  (cls.map rspamd_classifier.statfiles_ids).flatten

/-- The structural invariant Bootstrap maintains between the flat statfile
collection and the classifiers' owned-id sequences: ids are insertion
positions, the concatenated owned ids are exactly 0..n-1 in order, and each
owned id points back to its owning classifier. -/
def InvSC (stfs : List rspamd_statfile) (cls : List rspamd_classifier) : Prop :=
  (∀ i (hi : i < stfs.length), stfs[i].id = i) ∧
  joinIds cls = List.range stfs.length ∧
  (∀ k (hk : k < cls.length), ∀ i ∈ cls[k].statfiles_ids,
      ∃ hi : i < stfs.length, stfs[i].classifier = k)

instance : Inhabited rspamd_statfile :=
  ⟨{ id := 0, classifier := 0, stcf := ⟨""⟩, backend := ⟨""⟩, bkcf := 0 }⟩

instance : Inhabited rspamd_classifier :=
  ⟨{ cfg := { backend := none, classifier := none, tokenizer := none, opts := none,
              statfiles := [] },
     statfiles_ids := [], subrs := ⟨""⟩, cache := ⟨""⟩, cachecf := none }⟩

/-- An empty context value, used only as the default of `Option.getD` in
concrete witness computations. -/
def defaultCtx : rspamd_stat_ctx :=
  { classifiers_subrs := [], backends_subrs := [], tokenizers_subrs := [],
    caches_subrs := [], statfiles := [], classifiers := [], tokenizer := none,
    tkcf := none, async_elts := [] }

/-- A concrete provider environment for witness computations: the tokenizer
configuration builder returns 0 and backend construction succeeds except for
the symbol BAD. -/
def env0 : ProviderEnv :=
  { tokGetConfig := fun _ _ => 0,
    bkInit := fun _ stf => if stf.symbol = "BAD" then none else some 0 }

/-- A provider environment whose backend construction always fails. -/
def env1 : ProviderEnv :=
  { tokGetConfig := fun _ _ => 1, bkInit := fun _ _ => none }

/-- Witness configuration: one classifier, algorithm bayes, backend mmap,
tokenizer osb, no options, two statfile definitions. -/
def cfgW : rspamd_config :=
  { classifiers :=
      [{ backend := some "mmap", classifier := some "bayes", tokenizer := some "osb",
         opts := none,
         statfiles := [⟨"BAYES_SPAM"⟩, ⟨"BAYES_HAM"⟩] }] }

/-- The context the witness configuration bootstraps to. -/
def ctxW : rspamd_stat_ctx := (rspamd_stat_init env0 cfgW).getD defaultCtx

/-- First classifier definition of the two-tokenizer witness configuration. -/
def cW2a : rspamd_classifier_config :=
  { backend := some "mmap", classifier := some "bayes", tokenizer := some "osb",
    opts := none, statfiles := [] }

/-- Second classifier definition of the two-tokenizer witness configuration,
referencing a different tokenizer. -/
def cW2b : rspamd_classifier_config :=
  { backend := some "mmap", classifier := some "bayes", tokenizer := some "osb-text",
    opts := none, statfiles := [] }

/-- Witness configuration with two classifier definitions referencing the
tokenizers osb and osb-text respectively. -/
def cfgW2 : rspamd_config := { classifiers := [cW2a, cW2b] }

/-- The context the two-tokenizer witness configuration bootstraps to. -/
def ctxW2 : rspamd_stat_ctx := (rspamd_stat_init env0 cfgW2).getD defaultCtx

/-- Witness classifier definition naming a backend that no descriptor provides. -/
def clfW7 : rspamd_classifier_config :=
  { backend := some "nosuch", classifier := some "bayes", tokenizer := some "osb",
    opts := none, statfiles := [] }

/-- Witness configuration containing the unresolvable-backend definition. -/
def cfgW7 : rspamd_config := { classifiers := [clfW7] }

/-- Witness context for the async drain: no classifiers, three queued cleanup
elements, the middle one with a NULL callback. -/
def ctxW8 : rspamd_stat_ctx :=
  { defaultCtx with async_elts := [⟨some 1, 10⟩, ⟨none, 20⟩, ⟨some 2, 30⟩] }

/-- The cache options sub-tree of the first classifier definition in the C1
failing input. -/
def c1_cacheSub : Ucl := .obj [("name", .str "sqlite3")]

/-- C1 failing input, first definition: carries an explicit cache sub-tree
whose name is the default cache name. -/
def c1_clf1 : rspamd_classifier_config :=
  { backend := some "mmap", classifier := some "bayes", tokenizer := some "osb",
    opts := some (.obj [("cache", c1_cacheSub)]), statfiles := [] }

/-- C1 failing input, second definition: no options sub-tree at all, hence no
nested cache.name value. -/
def c1_clf2 : rspamd_classifier_config :=
  { backend := some "mmap", classifier := some "bayes", tokenizer := some "osb",
    opts := none, statfiles := [] }

/-- C1 failing input: the two definitions above, in order. -/
def c1_cfg : rspamd_config := { classifiers := [c1_clf1, c1_clf2] }

/-- The statfile loop only appends: the result extends the incoming statfile
collection and id list with a block of new statfiles whose ids continue the
insertion positions and whose classifier back-reference is the given index. -/
lemma processStatfiles_spec (env : ProviderEnv) (bk : rspamd_stat_backend) (clIdx : Nat) :
    ∀ (defs : List rspamd_statfile_config) (stfs : List rspamd_statfile) (ids : List Nat),
      ∃ delta : List rspamd_statfile,
        processStatfiles env bk clIdx defs stfs ids
          = (stfs ++ delta, ids ++ delta.map rspamd_statfile.id) ∧
        ∀ j (hj : j < delta.length),
          delta[j].id = stfs.length + j ∧ delta[j].classifier = clIdx := by
  intro defs
  induction defs with
  | nil =>
    intro stfs ids
    refine ⟨[], by simp [processStatfiles], ?_⟩
    intro j hj
    simp at hj
  | cons stf rest ih =>
    intro stfs ids
    cases hbk : env.bkInit bk.name stf with
    | none =>
      obtain ⟨delta, heq, hspec⟩ := ih stfs ids
      exact ⟨delta, by simp only [processStatfiles, hbk]; exact heq, hspec⟩
    | some bkcf =>
      obtain ⟨delta, heq, hspec⟩ :=
        ih (stfs ++ [{ id := stfs.length, classifier := clIdx, stcf := stf,
                       backend := bk, bkcf := bkcf }]) (ids ++ [stfs.length])
      refine ⟨{ id := stfs.length, classifier := clIdx, stcf := stf,
                backend := bk, bkcf := bkcf } :: delta, ?_, ?_⟩
      · simp only [processStatfiles, hbk]
        rw [heq]
        simp [List.append_assoc]
      · intro j hj
        cases j with
        | zero => exact ⟨by simp, rfl⟩
        | succ j' =>
          have hj' : j' < delta.length := by simpa using hj
          have hs := hspec j' hj'
          refine ⟨?_, ?_⟩
          · simp only [List.getElem_cons_succ]
            rw [hs.1]
            simp only [List.length_append, List.length_cons, List.length_nil]
            omega
          · simp only [List.getElem_cons_succ]
            exact hs.2

/-- Invariance principle for the classifier loop. -/
lemma initLoop_inv {env : ProviderEnv} (P : InitState → Prop)
    (hstep : ∀ s clf s', processClassifier env s clf = some s' → P s → P s') :
    ∀ (l : List rspamd_classifier_config) (s sf : InitState),
      initLoop env s l = some sf → P s → P sf := by
  intro l
  induction l with
  | nil =>
    intro s sf h hp
    simp only [initLoop] at h
    cases h
    exact hp
  | cons clf rest ih =>
    intro s sf h hp
    simp only [initLoop] at h
    cases hc : processClassifier env s clf with
    | none => rw [hc] at h; cases h
    | some s1 =>
      rw [hc] at h
      exact ih s1 sf h (hstep s clf s1 hc hp)

/-- Structural decomposition of a successful classifier-loop iteration: the
statfile collection grows by a block `delta` of new statfiles with consecutive
ids and the correct back-reference, and exactly one classifier owning exactly
those ids is appended. -/
lemma processClassifier_some {env : ProviderEnv} {s : InitState}
    {clf : rspamd_classifier_config} {s' : InitState}
    (h : processClassifier env s clf = some s') :
    ∃ (delta : List rspamd_statfile) (cl' : rspamd_classifier),
      s'.statfiles = s.statfiles ++ delta ∧
      s'.classifiers = s.classifiers ++ [cl'] ∧
      cl'.statfiles_ids = delta.map rspamd_statfile.id ∧
      (∀ j (hj : j < delta.length),
        delta[j].id = s.statfiles.length + j ∧
        delta[j].classifier = s.classifiers.length) := by
  unfold processClassifier at h
  cases hbk : rspamd_stat_get_backend clf.backend with
  | none => rw [hbk] at h; cases h
  | some bk =>
    rw [hbk] at h
    cases htk : resolveTokenizer env s clf with
    | none => rw [htk] at h; cases h
    | some tk =>
      rw [htk] at h
      cases hcl : rspamd_stat_get_classifier clf.classifier with
      | none => rw [hcl] at h; cases h
      | some subrs =>
        rw [hcl] at h
        cases hca : rspamd_stat_get_cache (nextCacheState s clf).2 with
        | none => rw [hca] at h; cases h
        | some cache =>
          rw [hca] at h
          obtain ⟨delta, heq, hspec⟩ :=
            processStatfiles_spec env bk s.classifiers.length clf.statfiles s.statfiles []
          cases h
          refine ⟨delta, _, ?_, rfl, ?_, hspec⟩
          · show (processStatfiles env bk s.classifiers.length clf.statfiles
              s.statfiles []).1 = s.statfiles ++ delta
            rw [heq]
          · show (processStatfiles env bk s.classifiers.length clf.statfiles
              s.statfiles []).2 = delta.map rspamd_statfile.id
            rw [heq]
            simp

/-- When no tokenizer configuration is cached yet, a successful iteration
resolves the tokenizer from this definition and caches descriptor and
configuration. -/
lemma processClassifier_tkcf_none {env : ProviderEnv} {s : InitState}
    {clf : rspamd_classifier_config} {s' : InitState}
    (h : processClassifier env s clf = some s') (h0 : s.tkcf = none) :
    ∃ t, rspamd_stat_get_tokenizer clf.tokenizer = some t ∧
      s'.tokenizer = some t ∧
      s'.tkcf = some (env.tokGetConfig t.name clf.tokenizer) := by
  unfold processClassifier at h
  cases hbk : rspamd_stat_get_backend clf.backend with
  | none => rw [hbk] at h; cases h
  | some bk =>
    rw [hbk] at h
    cases htok : rspamd_stat_get_tokenizer clf.tokenizer with
    | none =>
      have hr : resolveTokenizer env s clf = none := by
        unfold resolveTokenizer
        rw [h0, htok]
      rw [hr] at h
      cases h
    | some t =>
      have hr : resolveTokenizer env s clf
          = some (some t, env.tokGetConfig t.name clf.tokenizer) := by
        unfold resolveTokenizer
        rw [h0, htok]
      rw [hr] at h
      cases hcl : rspamd_stat_get_classifier clf.classifier with
      | none => rw [hcl] at h; cases h
      | some subrs =>
        rw [hcl] at h
        cases hca : rspamd_stat_get_cache (nextCacheState s clf).2 with
        | none => rw [hca] at h; cases h
        | some cache =>
          rw [hca] at h
          cases h
          exact ⟨t, rfl, rfl, rfl⟩

/-- A successful iteration ends with the loop locals `cache_obj` and
`cache_name` holding the values `nextCacheState` computed, and with a cached
tokenizer configuration. -/
lemma processClassifier_cache_fields {env : ProviderEnv} {s : InitState}
    {clf : rspamd_classifier_config} {s' : InitState}
    (h : processClassifier env s clf = some s') :
    s'.cache_obj = (nextCacheState s clf).1 ∧
    s'.cache_name = (nextCacheState s clf).2 ∧
    ∃ v, s'.tkcf = some v := by
  unfold processClassifier at h
  cases hbk : rspamd_stat_get_backend clf.backend with
  | none => rw [hbk] at h; cases h
  | some bk =>
    rw [hbk] at h
    cases htk : resolveTokenizer env s clf with
    | none => rw [htk] at h; cases h
    | some tk =>
      rw [htk] at h
      cases hcl : rspamd_stat_get_classifier clf.classifier with
      | none => rw [hcl] at h; cases h
      | some subrs =>
        rw [hcl] at h
        cases hca : rspamd_stat_get_cache (nextCacheState s clf).2 with
        | none => rw [hca] at h; cases h
        | some cache =>
          rw [hca] at h
          cases h
          exact ⟨rfl, rfl, tk.2, rfl⟩

/-- Once a tokenizer configuration is cached, later iterations keep descriptor
and configuration untouched. -/
lemma processClassifier_tkcf_some {env : ProviderEnv} {s : InitState}
    {clf : rspamd_classifier_config} {s' : InitState} {c : Nat}
    (h : processClassifier env s clf = some s') (h0 : s.tkcf = some c) :
    s'.tkcf = some c ∧ s'.tokenizer = s.tokenizer := by
  unfold processClassifier at h
  cases hbk : rspamd_stat_get_backend clf.backend with
  | none => rw [hbk] at h; cases h
  | some bk =>
    rw [hbk] at h
    have hr : resolveTokenizer env s clf = some (s.tokenizer, c) := by
      unfold resolveTokenizer
      rw [h0]
    rw [hr] at h
    cases hcl : rspamd_stat_get_classifier clf.classifier with
    | none => rw [hcl] at h; cases h
    | some subrs =>
      rw [hcl] at h
      cases hca : rspamd_stat_get_cache (nextCacheState s clf).2 with
      | none => rw [hca] at h; cases h
      | some cache =>
        rw [hca] at h
        cases h
        exact ⟨rfl, rfl⟩

/-- The ids of a freshly appended statfile block are the consecutive insertion
positions starting at the previous collection length. -/
lemma map_delta_id {delta : List rspamd_statfile} {n clIdx : Nat}
    (h : ∀ j (hj : j < delta.length), delta[j].id = n + j ∧ delta[j].classifier = clIdx) :
    delta.map rspamd_statfile.id = (List.range delta.length).map (fun x => n + x) := by
  apply List.ext_get
  · simp
  · intro j h1 h2
    simp only [List.get_eq_getElem, List.getElem_map, List.getElem_range]
    exact (h j (by simpa using h1)).1

/-- One successful classifier-loop iteration preserves the structural
invariant. -/
lemma processClassifier_invSC {env : ProviderEnv} {s : InitState}
    {clf : rspamd_classifier_config} {s' : InitState}
    (h : processClassifier env s clf = some s')
    (hinv : InvSC s.statfiles s.classifiers) : InvSC s'.statfiles s'.classifiers := by
  obtain ⟨delta, cl', hstf, hcls, hids, hdelta⟩ := processClassifier_some h
  obtain ⟨h1, h2, h3⟩ := hinv
  rw [hstf, hcls]
  refine ⟨?_, ?_, ?_⟩
  · intro i hi
    by_cases hlt : i < s.statfiles.length
    · rw [List.getElem_append_left hlt]
      exact h1 i hlt
    · have hbound : i - s.statfiles.length < delta.length := by
        simp only [List.length_append] at hi
        omega
      rw [List.getElem_append_right (Nat.le_of_not_lt hlt)]
      rw [(hdelta _ hbound).1]
      omega
  · have hjoin : joinIds (s.classifiers ++ [cl'])
        = joinIds s.classifiers ++ cl'.statfiles_ids := by
      unfold joinIds
      rw [List.map_append, List.flatten_append]
      simp
    rw [hjoin, h2, hids, map_delta_id hdelta, ← List.range_add]
    simp [List.length_append]
  · intro k hk i hmem
    by_cases hklt : k < s.classifiers.length
    · rw [List.getElem_append_left hklt] at hmem
      obtain ⟨hi, hcl⟩ := h3 k hklt i hmem
      refine ⟨by simp only [List.length_append]; omega, ?_⟩
      rw [List.getElem_append_left hi]
      exact hcl
    · have hkeq : k = s.classifiers.length := by
        simp only [List.length_append, List.length_cons, List.length_nil] at hk
        omega
      subst hkeq
      have hgl : (s.classifiers ++ [cl'])[s.classifiers.length] = cl' := by
        rw [List.getElem_append_right (Nat.le_refl _)]
        simp
      rw [hgl, hids] at hmem
      obtain ⟨st, hst, hstid⟩ := List.mem_map.mp hmem
      obtain ⟨j, hj, rfl⟩ := List.mem_iff_getElem.mp hst
      have hid := (hdelta j hj).1
      have hclf := (hdelta j hj).2
      have hieq : i = s.statfiles.length + j := by rw [← hstid, hid]
      subst hieq
      refine ⟨by simp only [List.length_append]; omega, ?_⟩
      rw [List.getElem_append_right (Nat.le_add_right _ _)]
      simp only [Nat.add_sub_cancel_left]
      exact hclf

/-- The structural invariant holds for the empty loop state. -/
lemma invSC_initState0 : InvSC initState0.statfiles initState0.classifiers := by
  refine ⟨?_, ?_, ?_⟩ <;> simp [initState0, joinIds]

/-- The classifier loop preserves the structural invariant. -/
lemma initLoop_invSC {env : ProviderEnv} {l : List rspamd_classifier_config}
    {s sf : InitState} (h : initLoop env s l = some sf)
    (h0 : InvSC s.statfiles s.classifiers) : InvSC sf.statfiles sf.classifiers :=
  initLoop_inv (fun st => InvSC st.statfiles st.classifiers)
    (fun _ _ _ hc hp => processClassifier_invSC hc hp) l s sf h h0

/-- A successful bootstrap is a successful classifier loop run whose final
state populates the context verbatim, alongside the static tables. -/
lemma rspamd_stat_init_some {env : ProviderEnv} {cfg : rspamd_config}
    {ctx : rspamd_stat_ctx} (h : rspamd_stat_init env cfg = some ctx) :
    ∃ s, initLoop env initState0 cfg.classifiers = some s ∧
      ctx = { classifiers_subrs := stat_classifiers, backends_subrs := stat_backends,
              tokenizers_subrs := stat_tokenizers, caches_subrs := stat_caches,
              statfiles := s.statfiles, classifiers := s.classifiers,
              tokenizer := s.tokenizer, tkcf := s.tkcf, async_elts := [] } := by
  unfold rspamd_stat_init at h
  cases hl : initLoop env initState0 cfg.classifiers with
  | none => rw [hl] at h; cases h
  | some s =>
    rw [hl] at h
    cases h
    exact ⟨s, rfl, rfl⟩

/-- The id loop distributes over appended id lists. -/
lemma closeIds_append (stfs : List rspamd_statfile) (l1 l2 : List Nat) :
    closeIds stfs (l1 ++ l2)
      = (closeIds stfs l1).bind
          (fun t1 => (closeIds stfs l2).map (fun t2 => t1 ++ t2)) := by
  induction l1 with
  | nil =>
    simp only [List.nil_append, closeIds]
    cases closeIds stfs l2 <;> simp
  | cons i l1 ih =>
    show closeIds stfs (i :: (l1 ++ l2)) = _
    simp only [closeIds, ih]
    cases stfs[i]? <;> cases closeIds stfs l1 <;> cases closeIds stfs l2 <;>
      simp [List.append_assoc]

/-- The classifier close loop is the id loop run on the concatenation of the
owned-id sequences. -/
lemma closeClassifiers_eq (stfs : List rspamd_statfile) :
    ∀ cls : List rspamd_classifier,
      closeClassifiers stfs cls = closeIds stfs (joinIds cls) := by
  intro cls
  induction cls with
  | nil => simp [closeClassifiers, joinIds, closeIds]
  | cons cl rest ih =>
    have hj : joinIds (cl :: rest) = cl.statfiles_ids ++ joinIds rest := by
      unfold joinIds
      simp
    rw [hj, closeIds_append]
    simp only [closeClassifiers]
    cases closeIds stfs cl.statfiles_ids with
    | none => simp
    | some tr =>
      rw [ih]
      cases closeIds stfs (joinIds rest) <;> simp

/-- The id loop succeeds on in-bounds ids and yields one close event per id. -/
lemma closeIds_bounds (stfs : List rspamd_statfile) :
    ∀ ids : List Nat, (∀ i ∈ ids, i < stfs.length) →
      closeIds stfs ids
        = some (ids.map (fun i =>
            ((stfs.getD i default).backend.name, (stfs.getD i default).bkcf))) := by
  intro ids
  induction ids with
  | nil => intro h; simp [closeIds]
  | cons i rest ih =>
    intro hb
    have hi : i < stfs.length := hb i (List.mem_cons_self i rest)
    have hrest := ih (fun j hj => hb j (List.mem_cons_of_mem i hj))
    simp only [closeIds]
    rw [List.getElem?_eq_getElem hi, hrest]
    simp [List.getElem?_eq_getElem hi]

/-- Closing ids 0..n-1 in order closes the whole statfile collection in order. -/
lemma closeIds_range (stfs : List rspamd_statfile) :
    closeIds stfs (List.range stfs.length)
      = some (stfs.map (fun st => (st.backend.name, st.bkcf))) := by
  rw [closeIds_bounds stfs (List.range stfs.length) (fun i hi => List.mem_range.mp hi)]
  congr 1
  apply List.ext_get
  · simp
  · intro j h1 h2
    simp only [List.get_eq_getElem, List.getElem_map, List.getElem_range]
    rw [List.getD_eq_getElem stfs default (by simpa using h2)]

/-- On any context satisfying the structural invariant, teardown succeeds and
its close trace lists every statfile exactly once, in id order. -/
lemma close_of_invSC {ctx : rspamd_stat_ctx}
    (h : InvSC ctx.statfiles ctx.classifiers) :
    rspamd_stat_close ctx
      = some { closes := ctx.statfiles.map (fun st => (st.backend.name, st.bkcf)),
               asyncCalls := drainAsync ctx.async_elts } := by
  obtain ⟨h1, h2, h3⟩ := h
  unfold rspamd_stat_close
  rw [closeClassifiers_eq, h2, closeIds_range]

/-- The async drain invokes exactly the callbacks that are present, in queue
order. -/
lemma drainAsync_eq_filterMap :
    ∀ q : List rspamd_stat_async_elt,
      drainAsync q = q.filterMap (fun e => e.cleanup.map (fun c => (c, e.ud))) := by
  intro q
  induction q with
  | nil => rfl
  | cons e rest ih =>
    cases hc : e.cleanup with
    | none => simp [drainAsync, hc, ih]
    | some c => simp [drainAsync, hc, ih]

/-- The cache locals computed for one definition depend only on the incoming
cache locals, not on the rest of the loop state. -/
lemma nextCacheState_congr {s1 s2 : InitState} (hco : s1.cache_obj = s2.cache_obj)
    (hcn : s1.cache_name = s2.cache_name) (clf : rspamd_classifier_config) :
    nextCacheState s1 clf = nextCacheState s2 clf := by
  unfold nextCacheState
  cases clf.opts with
  | none => simp only [hco, hcn]
  | some o =>
    cases hc : ucl_object_find_key o "cache" with
    | none => simp only [hc, hcn]
    | some c =>
      cases hn : ucl_object_find_key c "name" with
      | none => simp only [hc, hn, hcn]
      | some n => simp only [hc, hn]

/-- Whether tokenizer resolution succeeds depends only on whether a tokenizer
configuration is already cached, not on the provider environment. -/
lemma resolveTokenizer_isSome_env (env1 env2 : ProviderEnv) {s1 s2 : InitState}
    (ht : s1.tkcf.isSome = s2.tkcf.isSome) (clf : rspamd_classifier_config) :
    (resolveTokenizer env1 s1 clf).isSome = (resolveTokenizer env2 s2 clf).isSome := by
  unfold resolveTokenizer
  cases h1 : s1.tkcf with
  | some c1 =>
    cases h2 : s2.tkcf with
    | some c2 => rfl
    | none => rw [h1, h2] at ht; simp at ht
  | none =>
    cases h2 : s2.tkcf with
    | some c2 => rw [h1, h2] at ht; simp at ht
    | none => cases rspamd_stat_get_tokenizer clf.tokenizer <;> rfl

/-- Whether one classifier-loop iteration succeeds is independent of the
provider environment (backend and tokenizer providers cannot abort it),
given equal cache locals and equal cached-tokenizer presence. -/
lemma processClassifier_isSome_env (env1 env2 : ProviderEnv) {s1 s2 : InitState}
    (ht : s1.tkcf.isSome = s2.tkcf.isSome) (hco : s1.cache_obj = s2.cache_obj)
    (hcn : s1.cache_name = s2.cache_name) (clf : rspamd_classifier_config) :
    (processClassifier env1 s1 clf).isSome = (processClassifier env2 s2 clf).isSome := by
  unfold processClassifier
  cases hbk : rspamd_stat_get_backend clf.backend with
  | none => rfl
  | some bk =>
    have hnc := nextCacheState_congr hco hcn clf
    have hrt := resolveTokenizer_isSome_env env1 env2 ht clf
    cases hr1 : resolveTokenizer env1 s1 clf with
    | none =>
      cases hr2 : resolveTokenizer env2 s2 clf with
      | some tk2 => rw [hr1, hr2] at hrt; simp at hrt
      | none => rfl
    | some tk1 =>
      cases hr2 : resolveTokenizer env2 s2 clf with
      | none => rw [hr1, hr2] at hrt; simp at hrt
      | some tk2 =>
        cases rspamd_stat_get_classifier clf.classifier with
        | none => rfl
        | some subrs =>
          rw [hnc]
          cases rspamd_stat_get_cache (nextCacheState s2 clf).2 <;> rfl

/-- Whether the classifier loop completes is independent of the provider
environment. -/
lemma initLoop_isSome_env (env1 env2 : ProviderEnv) :
    ∀ (l : List rspamd_classifier_config) (s1 s2 : InitState),
      s1.tkcf.isSome = s2.tkcf.isSome → s1.cache_obj = s2.cache_obj →
      s1.cache_name = s2.cache_name →
      (initLoop env1 s1 l).isSome = (initLoop env2 s2 l).isSome := by
  intro l
  induction l with
  | nil => intro s1 s2 ht hco hcn; rfl
  | cons clf rest ih =>
    intro s1 s2 ht hco hcn
    have hstep := processClassifier_isSome_env env1 env2 ht hco hcn clf
    simp only [initLoop]
    cases hc1 : processClassifier env1 s1 clf with
    | none =>
      cases hc2 : processClassifier env2 s2 clf with
      | some s2' => rw [hc1, hc2] at hstep; simp at hstep
      | none => rfl
    | some s1' =>
      cases hc2 : processClassifier env2 s2 clf with
      | none => rw [hc1, hc2] at hstep; simp at hstep
      | some s2' =>
        obtain ⟨ho1, hn1, v1, hv1⟩ := processClassifier_cache_fields hc1
        obtain ⟨ho2, hn2, v2, hv2⟩ := processClassifier_cache_fields hc2
        have hnc := nextCacheState_congr hco hcn clf
        exact ih s1' s2' (by simp [hv1, hv2]) (by rw [ho1, ho2, hnc]) (by rw [hn1, hn2, hnc])

/-- A statfile definition whose backend construction fails is skipped entirely:
the statfile loop behaves exactly as if the definition were not there. -/
lemma processStatfiles_skip (env : ProviderEnv) (bk : rspamd_stat_backend) (clIdx : Nat)
    (bad : rspamd_statfile_config) (hbad : env.bkInit bk.name bad = none) :
    ∀ (pre post : List rspamd_statfile_config)
      (stfs : List rspamd_statfile) (ids : List Nat),
      processStatfiles env bk clIdx (pre ++ bad :: post) stfs ids
        = processStatfiles env bk clIdx (pre ++ post) stfs ids := by
  intro pre
  induction pre with
  | nil =>
    intro post stfs ids
    simp only [List.nil_append, processStatfiles, hbad]
  | cons stf pre ih =>
    intro post stfs ids
    simp only [List.cons_append, processStatfiles]
    cases env.bkInit bk.name stf with
    | none => exact ih post stfs ids
    | some bkcf => exact ih post _ _

/-- A definition with an unresolvable backend, classifier algorithm or own
cache name makes its loop iteration abort, whatever the loop state. -/
lemma processClassifier_badDef {clf : rspamd_classifier_config} (hbad : badDef clf) :
    ∀ (env : ProviderEnv) (s : InitState), processClassifier env s clf = none := by
  intro env s
  unfold processClassifier
  rcases hbad with hbk | hcl | ⟨cn, hcn, hca⟩
  · rw [hbk]
  · cases hb : rspamd_stat_get_backend clf.backend with
    | none => rfl
    | some bk =>
      cases resolveTokenizer env s clf with
      | none => rfl
      | some tk => rw [hcl]
  · cases hb : rspamd_stat_get_backend clf.backend with
    | none => rfl
    | some bk =>
      cases resolveTokenizer env s clf with
      | none => rfl
      | some tk =>
        cases rspamd_stat_get_classifier clf.classifier with
        | none => rfl
        | some subrs =>
          have hnext : (nextCacheState s clf).2 = some cn := by
            unfold clfCacheName at hcn
            unfold nextCacheState
            cases ho : clf.opts with
            | none => simp only [ho] at hcn; cases hcn
            | some o =>
              simp only [ho] at hcn
              cases hc : ucl_object_find_key o "cache" with
              | none => simp only [hc] at hcn; cases hcn
              | some c =>
                simp only [hc] at hcn
                cases hn : ucl_object_find_key c "name" with
                | none => simp only [hn] at hcn; cases hcn
                | some n =>
                  simp only [hn] at hcn
                  simp only [hc, hn]
                  exact hcn
          rw [hnext, hca]

/-- The classifier loop aborts on any list containing such a definition. -/
lemma initLoop_none_of_badDef {env : ProviderEnv} {clf : rspamd_classifier_config}
    (hbad : badDef clf) :
    ∀ l : List rspamd_classifier_config, clf ∈ l →
      ∀ s : InitState, initLoop env s l = none := by
  intro l
  induction l with
  | nil => intro hmem; cases hmem
  | cons a rest ih =>
    intro hmem s
    simp only [initLoop]
    rcases List.mem_cons.mp hmem with heq | hmem2
    · subst heq
      rw [processClassifier_badDef hbad env s]
    · cases hc : processClassifier env s a with
      | none => rfl
      | some s1 => exact ih hmem2 s1

/-- The accessor scan is the first-match search of the library. -/
lemma scanTable_eq_find {α : Type} (f : α → String) (nm : String) :
    ∀ tbl : List α, scanTable f nm tbl = tbl.find? (fun e => f e == nm) := by
  intro tbl
  induction tbl with
  | nil => rfl
  | cons e rest ih =>
    by_cases h : f e = nm
    · simp [scanTable, h, List.find?_cons_of_pos]
    · simp only [scanTable, if_neg h, ih]
      rw [List.find?_cons_of_neg]
      simp [h]

/-- The classifier loop appends exactly one classifier per definition. -/
lemma initLoop_length {env : ProviderEnv} :
    ∀ (l : List rspamd_classifier_config) (s sf : InitState),
      initLoop env s l = some sf →
      sf.classifiers.length = s.classifiers.length + l.length := by
  intro l
  induction l with
  | nil =>
    intro s sf h
    simp only [initLoop] at h
    cases h
    simp
  | cons clf rest ih =>
    intro s sf h
    simp only [initLoop] at h
    cases hc : processClassifier env s clf with
    | none => rw [hc] at h; cases h
    | some s1 =>
      rw [hc] at h
      obtain ⟨delta, cl', hstf1, hcls1, hids1, hdelta1⟩ := processClassifier_some hc
      have hlen := ih s1 sf h
      rw [hlen, hcls1]
      simp only [List.length_append, List.length_cons, List.length_nil]
      omega

/-- C1 (evaluation of the code at the failing input): the second classifier
definition of `c1_cfg` has no options sub-tree, hence no nested cache.name
value, yet the cache options sub-tree passed to its cache initializer is the
first definition's cache sub-tree rather than absent — the `cache_obj` and
`cache_name` locals are declared outside the classifier loop and leak from one
definition to the next. -/
theorem claim_C1_stale_cache_eval :
    (rspamd_stat_init env0 c1_cfg).map
        (fun ctx => ctx.classifiers.map rspamd_classifier.cachecf)
      = some [some c1_cacheSub, some c1_cacheSub] := by
  rfl

/-- C2: after a successful bootstrap of a configuration with at least one
classifier definition, the context's tokenizer descriptor and tokenizer
configuration are both the ones resolved from the first classifier definition;
every later definition's tokenizer reference is ignored. -/
theorem claim_C2_single_tokenizer (env : ProviderEnv) (cfg : rspamd_config)
    (ctx : rspamd_stat_ctx) (c0 : rspamd_classifier_config)
    (rest : List rspamd_classifier_config)
    (hcfg : cfg.classifiers = c0 :: rest)
    (hinit : rspamd_stat_init env cfg = some ctx) :
    ∃ t, rspamd_stat_get_tokenizer c0.tokenizer = some t ∧
      ctx.tokenizer = some t ∧
      ctx.tkcf = some (env.tokGetConfig t.name c0.tokenizer) := by
  obtain ⟨s, hloop, hctx⟩ := rspamd_stat_init_some hinit
  rw [hcfg] at hloop
  simp only [initLoop] at hloop
  cases hc : processClassifier env initState0 c0 with
  | none => rw [hc] at hloop; cases hloop
  | some s1 =>
    rw [hc] at hloop
    obtain ⟨t, htok, htk1, htkcf1⟩ := processClassifier_tkcf_none hc rfl
    have hpres := initLoop_inv
      (fun st => st.tokenizer = some t ∧
        st.tkcf = some (env.tokGetConfig t.name c0.tokenizer))
      (fun s2 clf s2' hstep hp => by
        obtain ⟨h1, h2⟩ := processClassifier_tkcf_some hstep hp.2
        exact ⟨h2.trans hp.1, h1⟩)
      rest s1 s hloop ⟨htk1, htkcf1⟩
    subst hctx
    exact ⟨t, htok, hpres.1, hpres.2⟩

/-- C2 witness: bootstrapping two definitions that reference osb and osb-text
respectively retains the osb descriptor and its configuration. -/
theorem claim_C2_witness :
    ctxW2.tokenizer = some ⟨"osb"⟩ ∧ ctxW2.tkcf = some 0 := by
  obtain ⟨t, h1, h2, h3⟩ :=
    claim_C2_single_tokenizer env0 cfgW2 ctxW2 cW2a [cW2b] (by rfl) (by rfl)
  have h4 : rspamd_stat_get_tokenizer cW2a.tokenizer = some ⟨"osb"⟩ := by rfl
  rw [h1] at h4
  have ht : t = ⟨"osb"⟩ := Option.some.inj h4
  subst ht
  refine ⟨h2, ?_⟩
  rw [h3]
  rfl

/-- C3: every statfile accepted during bootstrap has id equal to its insertion
position in the context's statfile collection, and each loop iteration only
appends to that collection (earlier entries are untouched), so distinct
accepted statfiles receive distinct, never-reused ids. -/
theorem claim_C3_id_stability :
    (∀ (env : ProviderEnv) (cfg : rspamd_config) (ctx : rspamd_stat_ctx),
        rspamd_stat_init env cfg = some ctx →
        ∀ i (hi : i < ctx.statfiles.length), ctx.statfiles[i].id = i) ∧
    (∀ (env : ProviderEnv) (s : InitState) (clf : rspamd_classifier_config)
        (s' : InitState), processClassifier env s clf = some s' →
        s.statfiles.length ≤ s'.statfiles.length ∧
        ∀ i, i < s.statfiles.length → s'.statfiles[i]? = s.statfiles[i]?) := by
  constructor
  · intro env cfg ctx hinit i hi
    obtain ⟨s, hloop, hctx⟩ := rspamd_stat_init_some hinit
    have hinv := initLoop_invSC hloop invSC_initState0
    subst hctx
    exact hinv.1 i hi
  · intro env s clf s' hstep
    obtain ⟨delta, cl', hstf, hcls, hids, hdelta⟩ := processClassifier_some hstep
    constructor
    · rw [hstf]
      simp
    · intro i hlt
      rw [hstf, List.getElem?_append]
      simp [hlt]

/-- C3 witness: in the bootstrapped witness context the statfile stored at
position 0 carries id 0. -/
theorem claim_C3_witness : (ctxW.statfiles.getD 0 default).id = 0 := by
  have hb : 0 < ctxW.statfiles.length := by decide
  have h := claim_C3_id_stability.1 env0 cfgW ctxW (by rfl) 0 hb
  rw [List.getD_eq_getElem ctxW.statfiles default hb]
  exact h

/-- C4: a statfile definition whose backend construction fails is skipped
entirely — not appended, no id consumed, no owned-id entry — while the
remaining statfile definitions are processed exactly as if it were absent;
bootstrap success never depends on the provider environment (so backend
construction failures cannot abort it), and a successful bootstrap appends one
classifier per classifier definition. -/
theorem claim_C4_partial_failure :
    (∀ (env : ProviderEnv) (bk : rspamd_stat_backend) (clIdx : Nat)
        (bad : rspamd_statfile_config), env.bkInit bk.name bad = none →
        ∀ (pre post : List rspamd_statfile_config)
          (stfs : List rspamd_statfile) (ids : List Nat),
          processStatfiles env bk clIdx (pre ++ bad :: post) stfs ids
            = processStatfiles env bk clIdx (pre ++ post) stfs ids) ∧
    (∀ (env1 env2 : ProviderEnv) (cfg : rspamd_config),
        (rspamd_stat_init env1 cfg).isSome = (rspamd_stat_init env2 cfg).isSome) ∧
    (∀ (env : ProviderEnv) (cfg : rspamd_config) (ctx : rspamd_stat_ctx),
        rspamd_stat_init env cfg = some ctx →
        ctx.classifiers.length = cfg.classifiers.length) := by
  refine ⟨?_, ?_, ?_⟩
  · intro env bk clIdx bad hbad pre post stfs ids
    exact processStatfiles_skip env bk clIdx bad hbad pre post stfs ids
  · intro env1 env2 cfg
    unfold rspamd_stat_init
    have h := initLoop_isSome_env env1 env2 cfg.classifiers initState0 initState0 rfl rfl rfl
    cases h1 : initLoop env1 initState0 cfg.classifiers with
    | none =>
      cases h2 : initLoop env2 initState0 cfg.classifiers with
      | none => rfl
      | some s2 => rw [h1, h2] at h; simp at h
    | some s1 =>
      cases h2 : initLoop env2 initState0 cfg.classifiers with
      | none => rw [h1, h2] at h; simp at h
      | some s2 => rfl
  · intro env cfg ctx hinit
    obtain ⟨s, hloop, hctx⟩ := rspamd_stat_init_some hinit
    have hlen := initLoop_length cfg.classifiers initState0 s hloop
    subst hctx
    simpa [initState0] using hlen

/-- C4 witness: a failing BAD statfile definition between two good ones is
skipped and the loop proceeds exactly as without it. -/
theorem claim_C4_witness :
    env0.bkInit "mmap" ⟨"BAD"⟩ = none ∧
    processStatfiles env0 ⟨"mmap"⟩ 0 [⟨"BAYES_SPAM"⟩, ⟨"BAD"⟩, ⟨"BAYES_HAM"⟩] [] []
      = processStatfiles env0 ⟨"mmap"⟩ 0 [⟨"BAYES_SPAM"⟩, ⟨"BAYES_HAM"⟩] [] [] :=
  ⟨by rfl,
   claim_C4_partial_failure.1 env0 ⟨"mmap"⟩ 0 ⟨"BAD"⟩ (by rfl)
     [⟨"BAYES_SPAM"⟩] [⟨"BAYES_HAM"⟩] [] []⟩

/-- C5: tearing down a bootstrapped context resets the process-wide state to
absent (the context accessor then returns absent) and invokes each statfile's
backend close operation exactly once, with that statfile's backend state, in
id order. -/
theorem claim_C5_teardown_completeness (env : ProviderEnv) (cfg : rspamd_config)
    (ctx : rspamd_stat_ctx) (hinit : rspamd_stat_init env cfg = some ctx) :
    rspamd_stat_close_global (some ctx)
      = some (none,
          { closes := ctx.statfiles.map (fun st => (st.backend.name, st.bkcf)),
            asyncCalls := [] }) ∧
    rspamd_stat_get_ctx none = none := by
  refine ⟨?_, rfl⟩
  obtain ⟨s, hloop, hctx⟩ := rspamd_stat_init_some hinit
  subst hctx
  have hinv := initLoop_invSC hloop invSC_initState0
  have hclose := @close_of_invSC
    { classifiers_subrs := stat_classifiers, backends_subrs := stat_backends,
      tokenizers_subrs := stat_tokenizers, caches_subrs := stat_caches,
      statfiles := s.statfiles, classifiers := s.classifiers,
      tokenizer := s.tokenizer, tkcf := s.tkcf, async_elts := [] } hinv
  simp only [rspamd_stat_close_global, rspamd_stat_get_ctx, hclose]
  rfl

/-- C5 witness: tearing down the bootstrapped witness context closes both of
its statfiles once each and the context accessor returns absent afterwards. -/
theorem claim_C5_witness :
    rspamd_stat_close_global (some ctxW)
      = some (none,
          { closes := ctxW.statfiles.map (fun st => (st.backend.name, st.bkcf)),
            asyncCalls := [] }) ∧
    rspamd_stat_get_ctx none = none :=
  claim_C5_teardown_completeness env0 cfgW ctxW (by rfl)

/-- C6: for each of the four capability kinds, resolving with a NULL or empty
name yields the same descriptor as resolving the kind's default name
explicitly; with a non-empty name, resolution is the first-match linear scan
of the kind's table under exact name equality; and a non-empty name matching
no table entry resolves to absent. -/
theorem claim_C6_registry_lookup :
    ((rspamd_stat_get_classifier none
        = rspamd_stat_get_classifier (some RSPAMD_DEFAULT_CLASSIFIER) ∧
      rspamd_stat_get_classifier (some "")
        = rspamd_stat_get_classifier (some RSPAMD_DEFAULT_CLASSIFIER)) ∧
     (rspamd_stat_get_backend none
        = rspamd_stat_get_backend (some RSPAMD_DEFAULT_BACKEND) ∧
      rspamd_stat_get_backend (some "")
        = rspamd_stat_get_backend (some RSPAMD_DEFAULT_BACKEND)) ∧
     (rspamd_stat_get_tokenizer none
        = rspamd_stat_get_tokenizer (some RSPAMD_DEFAULT_TOKENIZER) ∧
      rspamd_stat_get_tokenizer (some "")
        = rspamd_stat_get_tokenizer (some RSPAMD_DEFAULT_TOKENIZER)) ∧
     (rspamd_stat_get_cache none
        = rspamd_stat_get_cache (some RSPAMD_DEFAULT_CACHE) ∧
      rspamd_stat_get_cache (some "")
        = rspamd_stat_get_cache (some RSPAMD_DEFAULT_CACHE))) ∧
    (∀ n : String, n ≠ "" →
      rspamd_stat_get_classifier (some n)
          = stat_classifiers.find? (fun e => e.name == n) ∧
      rspamd_stat_get_backend (some n)
          = stat_backends.find? (fun e => e.name == n) ∧
      rspamd_stat_get_tokenizer (some n)
          = stat_tokenizers.find? (fun e => e.name == n) ∧
      rspamd_stat_get_cache (some n)
          = stat_caches.find? (fun e => e.name == n)) ∧
    (∀ n : String, n ≠ "" → (∀ e ∈ stat_classifiers, e.name ≠ n) →
        rspamd_stat_get_classifier (some n) = none) ∧
    (∀ n : String, n ≠ "" → (∀ e ∈ stat_backends, e.name ≠ n) →
        rspamd_stat_get_backend (some n) = none) ∧
    (∀ n : String, n ≠ "" → (∀ e ∈ stat_tokenizers, e.name ≠ n) →
        rspamd_stat_get_tokenizer (some n) = none) ∧
    (∀ n : String, n ≠ "" → (∀ e ∈ stat_caches, e.name ≠ n) →
        rspamd_stat_get_cache (some n) = none) := by
  refine ⟨⟨⟨rfl, rfl⟩, ⟨rfl, rfl⟩, ⟨rfl, rfl⟩, ⟨rfl, rfl⟩⟩, ?_, ?_, ?_, ?_, ?_⟩
  · intro n hn
    refine ⟨?_, ?_, ?_, ?_⟩ <;>
      simp [rspamd_stat_get_classifier, rspamd_stat_get_backend,
        rspamd_stat_get_tokenizer, rspamd_stat_get_cache, substDefault, hn,
        scanTable_eq_find]
  · intro n hn hnone
    simp only [rspamd_stat_get_classifier, substDefault, if_neg hn,
      scanTable_eq_find]
    rw [List.find?_eq_none]
    intro e hmem
    simp [hnone e hmem]
  · intro n hn hnone
    simp only [rspamd_stat_get_backend, substDefault, if_neg hn,
      scanTable_eq_find]
    rw [List.find?_eq_none]
    intro e hmem
    simp [hnone e hmem]
  · intro n hn hnone
    simp only [rspamd_stat_get_tokenizer, substDefault, if_neg hn,
      scanTable_eq_find]
    rw [List.find?_eq_none]
    intro e hmem
    simp [hnone e hmem]
  · intro n hn hnone
    simp only [rspamd_stat_get_cache, substDefault, if_neg hn,
      scanTable_eq_find]
    rw [List.find?_eq_none]
    intro e hmem
    simp [hnone e hmem]

/-- C6 witness: the non-empty name zzz resolves over the backend table by the
first-match scan and, matching no cache table entry, resolves to absent. -/
theorem claim_C6_witness :
    ("zzz" : String) ≠ "" ∧
    rspamd_stat_get_backend (some "zzz")
      = stat_backends.find? (fun e => e.name == "zzz") ∧
    rspamd_stat_get_cache (some "zzz") = none :=
  ⟨by decide,
   (claim_C6_registry_lookup.2.1 "zzz" (by decide)).2.1,
   claim_C6_registry_lookup.2.2.2.2.2 "zzz" (by decide) (by decide)⟩

/-- C7: a configuration containing a classifier definition whose storage
backend name, classifier algorithm name or own nested cache name resolves to
no descriptor makes bootstrap abort; the failure is never treated as a
per-resource soft failure. -/
theorem claim_C7_fatal_resolution (env : ProviderEnv) (cfg : rspamd_config)
    (clf : rspamd_classifier_config) (hmem : clf ∈ cfg.classifiers)
    (hbad : badDef clf) : rspamd_stat_init env cfg = none := by
  unfold rspamd_stat_init
  rw [initLoop_none_of_badDef hbad cfg.classifiers hmem initState0]

/-- C7 witness: the configuration naming the nonexistent backend nosuch aborts
bootstrap. -/
theorem claim_C7_witness : rspamd_stat_init env0 cfgW7 = none :=
  claim_C7_fatal_resolution env0 cfgW7 clfW7 (List.mem_singleton_self clfW7)
    (Or.inl (by rfl))

/-- C8: whenever teardown completes, the async cleanup queue has been drained
head to tail: each element whose callback is present is invoked exactly once,
in queue order, and an element with an absent callback is never invoked. -/
theorem claim_C8_async_drain (ctx : rspamd_stat_ctx) (tr : CloseTrace)
    (h : rspamd_stat_close ctx = some tr) :
    tr.asyncCalls
      = ctx.async_elts.filterMap (fun e => e.cleanup.map (fun c => (c, e.ud))) := by
  unfold rspamd_stat_close at h
  cases hc : closeClassifiers ctx.statfiles ctx.classifiers with
  | none => rw [hc] at h; cases h
  | some closes =>
    rw [hc] at h
    cases h
    exact drainAsync_eq_filterMap ctx.async_elts

/-- C8 witness: draining the three-element witness queue invokes the two
present callbacks in order and skips the element with the absent callback. -/
theorem claim_C8_witness :
    rspamd_stat_close ctxW8
      = some { closes := [], asyncCalls := [(1, 10), (2, 30)] } ∧
    ((rspamd_stat_close ctxW8).getD { closes := [], asyncCalls := [] }).asyncCalls
      = ctxW8.async_elts.filterMap (fun e => e.cleanup.map (fun c => (c, e.ud))) :=
  ⟨by rfl,
   claim_C8_async_drain ctxW8
     ((rspamd_stat_close ctxW8).getD { closes := [], asyncCalls := [] }) (by rfl)⟩

/-- C9: the four lookup accessors dereference the process-wide context
unconditionally — invoked with no context they hit a NULL dereference, while
with an existing (bootstrapped) context they return the table lookup, so under
that precondition the absent-context branch is unreachable; teardown likewise
requires an existing context and aborts, rather than being a no-op, when none
exists. -/
theorem claim_C9_context_precondition :
    (∀ name,
      rspamd_stat_get_classifier_global none name = GlobalResult.nullDeref ∧
      rspamd_stat_get_backend_global none name = GlobalResult.nullDeref ∧
      rspamd_stat_get_tokenizer_global none name = GlobalResult.nullDeref ∧
      rspamd_stat_get_cache_global none name = GlobalResult.nullDeref) ∧
    (∀ (env : ProviderEnv) (cfg : rspamd_config) (ctx : rspamd_stat_ctx),
        rspamd_stat_init env cfg = some ctx → ∀ name,
        rspamd_stat_get_classifier_global (some ctx) name
            = GlobalResult.ok (rspamd_stat_get_classifier name) ∧
        rspamd_stat_get_backend_global (some ctx) name
            = GlobalResult.ok (rspamd_stat_get_backend name) ∧
        rspamd_stat_get_tokenizer_global (some ctx) name
            = GlobalResult.ok (rspamd_stat_get_tokenizer name) ∧
        rspamd_stat_get_cache_global (some ctx) name
            = GlobalResult.ok (rspamd_stat_get_cache name)) ∧
    rspamd_stat_close_global none = none := by
  refine ⟨fun name => ⟨rfl, rfl, rfl, rfl⟩, ?_, rfl⟩
  intro env cfg ctx hinit name
  obtain ⟨s, hloop, hctx⟩ := rspamd_stat_init_some hinit
  subst hctx
  exact ⟨rfl, rfl, rfl, rfl⟩

/-- C9 witness: with the bootstrapped witness context present, the backend
accessor reaches the table lookup instead of the NULL dereference. -/
theorem claim_C9_witness :
    rspamd_stat_get_backend_global (some ctxW) (some "mmap")
      = GlobalResult.ok (rspamd_stat_get_backend (some "mmap")) :=
  ((claim_C9_context_precondition.2.1 env0 cfgW ctxW (by rfl) (some "mmap")).2.1)

/-- C10: in any bootstrapped context, every id in any classifier's owned-id
sequence is in bounds for the statfile collection, the statfile stored at that
position carries that id and a back-reference to that very classifier, and the
owned-id sequences of distinct classifiers are disjoint — teardown's id-based
lookup is therefore always in bounds and closes each statfile under exactly
one classifier. -/
theorem claim_C10_ownership (env : ProviderEnv) (cfg : rspamd_config)
    (ctx : rspamd_stat_ctx) (hinit : rspamd_stat_init env cfg = some ctx) :
    (∀ k (hk : k < ctx.classifiers.length),
        ∀ i ∈ ctx.classifiers[k].statfiles_ids,
          ∃ hi : i < ctx.statfiles.length,
            ctx.statfiles[i].id = i ∧ ctx.statfiles[i].classifier = k) ∧
    (∀ k1 k2 (hk1 : k1 < ctx.classifiers.length)
        (hk2 : k2 < ctx.classifiers.length), k1 ≠ k2 →
        ∀ i, i ∈ ctx.classifiers[k1].statfiles_ids →
          i ∈ ctx.classifiers[k2].statfiles_ids → False) := by
  obtain ⟨s, hloop, hctx⟩ := rspamd_stat_init_some hinit
  subst hctx
  obtain ⟨h1, h2, h3⟩ := initLoop_invSC hloop invSC_initState0
  constructor
  · intro k hk i hmem
    obtain ⟨hi, hcl⟩ := h3 k hk i hmem
    exact ⟨hi, h1 i hi, hcl⟩
  · intro k1 k2 hk1 hk2 hne i hm1 hm2
    obtain ⟨hi1, hcl1⟩ := h3 k1 hk1 i hm1
    obtain ⟨hi2, hcl2⟩ := h3 k2 hk2 i hm2
    exact hne (hcl1.symm.trans hcl2)

/-- C10 witness: in the bootstrapped witness context, id 0 is owned by
classifier 0, and the statfile stored at position 0 carries id 0 and points
back to classifier 0. -/
theorem claim_C10_witness :
    (ctxW.statfiles.getD 0 default).id = 0 ∧
    (ctxW.statfiles.getD 0 default).classifier = 0 := by
  have hk : 0 < ctxW.classifiers.length := by decide
  have hmem : 0 ∈ (ctxW.classifiers.get ⟨0, by decide⟩).statfiles_ids := by decide
  obtain ⟨hi, hid, hcl⟩ :=
    (claim_C10_ownership env0 cfgW ctxW (by rfl)).1 0 hk 0 hmem
  rw [List.getD_eq_getElem ctxW.statfiles default hi]
  exact ⟨hid, hcl⟩

end StatConfig
